import Mathlib

/-!
Verification of the HerniaOrtiz medical-imaging pipeline.

This file gives a shallow embedding, in Lean 4, of the services of
`app/Hernia/services.py`, `app/Hernia/auth_service.py` and the upload view of
`app/Hernia/views.py`, and proves the behavioural claims about them.

Conventions of the embedding:
* Python dict lookups with a default (`d.get(k, v)`) become `Option` fields
  read with `Option.getD`.
* Python numbers are embedded as `ℚ` (confidences) or `Nat`/`Int` (sizes,
  ids, timestamps); `round(x, 2)` becomes `pyRound2`, round-half-to-even at
  two decimals, which is Python's rounding rule on exact values.
* Fallible operations return `Except String α`; a Python `try/except` becomes
  a `match` on that result.
* The Django ORM state is an explicit record `HerniaDB` threaded through the
  service functions; `@transaction.atomic` becomes "on error, the returned
  database is the input database" (rollback), with the proviso that file-blob
  writes are not transactional and survive a rollback.
* External failure points (blob storage, the database `save`) are injected as
  boolean parameters so that the error-propagation claims quantify over them.
-/

namespace HerniaOrtiz

/-- Python `round(q, 2)` at exact rational inputs: round half to even at two
decimal places. -/
def pyRound2 (q : ℚ) : ℚ :=
  let scaled : ℚ := q * 100
  let f : ℤ := ⌊scaled⌋
  let r : ℚ := scaled - f
  let n : ℤ :=
    if r < 1/2 then f
    else if 1/2 < r then f + 1
    else if f % 2 = 0 then f else f + 1
  (n : ℚ) / 100

/-- Python `s.rsplit('.', 1)[-1]` (also `s.split('.')[-1]`): the suffix of
`s` after its last `'.'`, or all of `s` when it has no dot. -/
def pyRsplitLastDot (s : String) : String :=
  String.mk ((s.data.reverse.takeWhile (fun c => c ≠ '.')).reverse)

/-- Python `s.lower()` on the ASCII fragment the validator's filenames use:
map `A`-`Z` to `a`-`z` characterwise. -/
def pyLower (s : String) : String :=
  String.mk (s.data.map Char.toLower)

/-! ## Prediction data (transient payload from the inference API)

Mirrors the JSON payload consumed by `extract_prediction_data` and
`draw_predictions_on_image`: each prediction is a dict that may carry
`class`, `confidence` and `points` keys; each point may carry `x` and `y`. -/

/-- One polygon point of a prediction; `x`/`y` are `Option` because the
Python code indexes `p['x']`, `p['y']` and a missing key raises. -/
structure PredPoint where
  x : Option Int := none
  y : Option Int := none
deriving DecidableEq

/-- One prediction dict: `class`, `confidence`, `points` are all read with
`.get`/`in`-tests in the source, hence `Option` fields. -/
structure Pred where
  «class» : Option String := none
  confidence : Option ℚ := none
  points : Option (List PredPoint) := none
deriving DecidableEq

/-- The inference result dict; the source reads `result.get('predictions', [])`. -/
structure InferenceResult where
  predictions : Option (List Pred) := none
deriving DecidableEq

/-- `ImageProcessingService.extract_prediction_data` (services.py:135-150). -/
def extract_prediction_data (result : InferenceResult) : String × ℚ :=
  let predictions := result.predictions.getD []
  match predictions with
  | [] => ("Predicción no encontrada", 0)
  | first_pred :: _ =>
    let class_prediction := first_pred.«class».getD "Unknown"
    let confidence := (first_pred.confidence.getD 0) * 100
    let grupo := if class_prediction = "Sin Hernia" then "Sin Hernia" else "Hernia"
    let porcentaje := pyRound2 confidence
    (grupo, porcentaje)

/-! ## Image validator (`ImageValidator`, services.py:216-272) -/

def ALLOWED_EXTENSIONS : List String := ["jpg", "jpeg", "png", "gif", "bmp"]

def MAX_FILE_SIZE : Nat := 10 * 1024 * 1024

def MIN_DIMENSION : Nat := 100

def MAX_DIMENSION : Nat := 10000

/-- `ImageValidator.validate_file_extension` (services.py:224-228):
`filename.rsplit('.', 1)[-1].lower() in ALLOWED_EXTENSIONS`. -/
def validate_file_extension (filename : String) : Bool :=
  ALLOWED_EXTENSIONS.contains (pyLower (pyRsplitLastDot filename))

/-- `ImageValidator.validate_file_size` (services.py:230-233):
`0 < file_size <= MAX_FILE_SIZE`. -/
def validate_file_size (file_size : Nat) : Bool :=
  0 < file_size && file_size ≤ MAX_FILE_SIZE

/-- `ImageValidator.validate_image_dimensions` (services.py:235-242). -/
def validate_image_dimensions (width height : Nat) : Bool :=
  (MIN_DIMENSION ≤ width && width ≤ MAX_DIMENSION) &&
  (MIN_DIMENSION ≤ height && height ≤ MAX_DIMENSION)

/-- An uploaded file as `validate_image` observes it: a name, a byte size,
and the outcome of decoding its byte stream with PIL — either the decoded
image's `(width, height)` or the exception the decode raised. -/
structure UploadedFile where
  name : String
  size : Nat
  decoded : Except String (Nat × Nat)

/-- `ImageValidator.validate_image` (services.py:244-272): the four checks in
source order, first failure winning; a decode exception is caught and turned
into the invalid-image result. -/
def validate_image (file_obj : UploadedFile) : Bool × Option String :=
  if ¬ validate_file_extension file_obj.name then
    (false, some "Formato de archivo no permitido")
  else if ¬ validate_file_size file_obj.size then
    (false, some "Archivo demasiado grande (máximo 10.0MB)")
  else
    match file_obj.decoded with
    | .error _ => (false, some "Archivo no es una imagen válida")
    | .ok (width, height) =>
      if ¬ validate_image_dimensions width height then
        (false, some "Dimensiones inválidas (100-10000px)")
      else (true, none)

/-! ## SHA-256 (the semantics of `hashlib.sha256(...).hexdigest()`)

`generate_encrypted_filename` calls into Python's `hashlib`; this section is
a byte-level FIPS 180-4 SHA-256 over `Nat` (all word arithmetic taken mod
`2^32`), checked against the standard test vectors. -/

/-- Truncate to 32 bits. -/
def w32 (n : Nat) : Nat := n % 4294967296

/-- 32-bit right rotation (the two shifted parts are disjoint, so `+` is
their bitwise or). -/
def rotr32 (x n : Nat) : Nat := (x >>> n) + ((x % (2 ^ n)) <<< (32 - n))

/-- 32-bit bitwise complement. -/
def not32 (x : Nat) : Nat := 4294967295 ^^^ x

def bigSigma0 (x : Nat) : Nat := (rotr32 x 2) ^^^ (rotr32 x 13) ^^^ (rotr32 x 22)

def bigSigma1 (x : Nat) : Nat := (rotr32 x 6) ^^^ (rotr32 x 11) ^^^ (rotr32 x 25)

def smallSigma0 (x : Nat) : Nat := (rotr32 x 7) ^^^ (rotr32 x 18) ^^^ (x >>> 3)

def smallSigma1 (x : Nat) : Nat := (rotr32 x 17) ^^^ (rotr32 x 19) ^^^ (x >>> 10)

def chF (e f g : Nat) : Nat := (e &&& f) ^^^ ((not32 e) &&& g)

def majF (a b c : Nat) : Nat := (a &&& b) ^^^ (a &&& c) ^^^ (b &&& c)

def sha256K : List Nat :=
  [1116352408, 1899447441, 3049323471, 3921009573, 961987163, 1508970993,
   2453635748, 2870763221, 3624381080, 310598401, 607225278, 1426881987,
   1925078388, 2162078206, 2614888103, 3248222580, 3835390401, 4022224774,
   264347078, 604807628, 770255983, 1249150122, 1555081692, 1996064986,
   2554220882, 2821834349, 2952996808, 3210313671, 3336571891, 3584528711,
   113926993, 338241895, 666307205, 773529912, 1294757372, 1396182291,
   1695183700, 1986661051, 2177026350, 2456956037, 2730485921, 2820302411,
   3259730800, 3345764771, 3516065817, 3600352804, 4094571909, 275423344,
   430227734, 506948616, 659060556, 883997877, 958139571, 1322822218,
   1537002063, 1747873779, 1955562222, 2024104815, 2227730452, 2361852424,
   2428436474, 2756734187, 3204031479, 3329325298]

/-- The running hash state, eight 32-bit words. -/
structure Hash8 where
  a : Nat
  b : Nat
  c : Nat
  d : Nat
  e : Nat
  f : Nat
  g : Nat
  h : Nat

def sha256H0 : Hash8 :=
  ⟨1779033703, 3144134277, 1013904242, 2773480762,
   1359893119, 2600822924, 528734635, 1541459225⟩

/-- One compression round. -/
def roundStep (st : Hash8) (k wt : Nat) : Hash8 :=
  let t1 := w32 (st.h + bigSigma1 st.e + chF st.e st.f st.g + k + wt)
  let t2 := w32 (bigSigma0 st.a + majF st.a st.b st.c)
  ⟨w32 (t1 + t2), st.a, st.b, st.c, w32 (st.d + t1), st.e, st.f, st.g⟩

/-- Extend 16 words to the 64-word message schedule. -/
def schedule (w16 : List Nat) : List Nat :=
  (List.range 48).foldl
    (fun ws _ =>
      let t := ws.length
      ws ++ [w32 (smallSigma1 (ws.getD (t - 2) 0) + ws.getD (t - 7) 0 +
                  smallSigma0 (ws.getD (t - 15) 0) + ws.getD (t - 16) 0)])
    w16

/-- Compress one 64-byte block (given as its 16 big-endian words) into the
running hash. -/
def compressBlock (H : Hash8) (w16 : List Nat) : Hash8 :=
  let ws := schedule w16
  let fin := (sha256K.zip ws).foldl (fun st kw => roundStep st kw.1 kw.2) H
  ⟨w32 (H.a + fin.a), w32 (H.b + fin.b), w32 (H.c + fin.c), w32 (H.d + fin.d),
   w32 (H.e + fin.e), w32 (H.f + fin.f), w32 (H.g + fin.g), w32 (H.h + fin.h)⟩

/-- A natural number as 8 big-endian bytes. -/
def be64 (n : Nat) : List Nat :=
  [(n >>> 56) % 256, (n >>> 48) % 256, (n >>> 40) % 256, (n >>> 32) % 256,
   (n >>> 24) % 256, (n >>> 16) % 256, (n >>> 8) % 256, n % 256]

/-- SHA-256 padding: append `0x80`, zeros up to 56 mod 64, then the 64-bit
big-endian bit length. -/
def padMessage (ms : List Nat) : List Nat :=
  let L := ms.length
  ms ++ [0x80] ++ List.replicate ((119 - (L % 64)) % 64) 0 ++ be64 (8 * L)

/-- The 16 big-endian 32-bit words of a 64-byte chunk. -/
def chunkWords (chunk : List Nat) : List Nat :=
  (List.range 16).map (fun i =>
    (chunk.getD (4 * i) 0) * 16777216 + (chunk.getD (4 * i + 1) 0) * 65536 +
    (chunk.getD (4 * i + 2) 0) * 256 + chunk.getD (4 * i + 3) 0)

/-- SHA-256 of a byte list, as the final eight hash words. -/
def sha256words (ms : List Nat) : List Nat :=
  let padded := padMessage ms
  let chunks := (List.range (padded.length / 64)).map
    (fun i => (padded.drop (64 * i)).take 64)
  let fin := chunks.foldl (fun H chunk => compressBlock H (chunkWords chunk)) sha256H0
  [fin.a, fin.b, fin.c, fin.d, fin.e, fin.f, fin.g, fin.h]

def hexChar (n : Nat) : Char :=
  ("0123456789abcdef".data).getD n '0'

/-- A 32-bit word as exactly eight lowercase hex characters. -/
def wordHex8 (w : Nat) : List Char :=
  (List.range 8).map (fun i => hexChar ((w >>> (4 * (7 - i))) % 16))

/-- `hashlib.sha256(bytes).hexdigest()`. -/
def sha256hexdigest (ms : List Nat) : String :=
  String.mk (((sha256words ms).map wordHex8).flatten)

/-- UTF-8 encoding of one code point. -/
def utf8Char (n : Nat) : List Nat :=
  if n < 128 then [n]
  else if n < 2048 then [192 + n / 64, 128 + n % 64]
  else if n < 65536 then [224 + n / 4096, 128 + (n / 64) % 64, 128 + n % 64]
  else [240 + n / 262144, 128 + (n / 4096) % 64, 128 + (n / 64) % 64, 128 + n % 64]

/-- Python `s.encode()`: the UTF-8 bytes of the string. -/
def utf8Encode (s : String) : List Nat :=
  (s.data.map (fun c => utf8Char c.toNat)).flatten

/-- `ImageProcessingService.generate_encrypted_filename` (services.py:50-56):
SHA-256 hex digest of the whole original name, then a dot, then
`original_name.split('.')[-1]` (the segment after the last dot). -/
def generate_encrypted_filename (original_name : String) : String :=
  let encrypted_name := sha256hexdigest (utf8Encode original_name)
  let extension := pyRsplitLastDot original_name
  encrypted_name ++ "." ++ extension

/-! ## Annotation renderer (`draw_predictions_on_image`, services.py:89-124)

The image is embedded as the trace of cv2 draw calls applied to it: drawing
a prediction's polygon (fill + outline + label) is one `drawn` node recording
the polygon, the class name and the confidence used for the label. "Unchanged
image" is then definitional equality of traces. -/

inductive AnnImg where
  | source (id : Nat)
  | drawn (prev : AnnImg) (pts : List (Int × Int)) (cls : String) (conf : ℚ)
deriving DecidableEq

/-- The body of the `for` loop of `draw_predictions_on_image` for one
prediction, up to the `try`: reads `confidence`/`class` with defaults, skips
when `'points' not in pred`, and otherwise builds the `[[p['x'], p['y']] ...]`
point array — where a point lacking `'x'` or `'y'` raises (`Except.error`) —
then performs the fill/outline/label draws. -/
def drawOne (img : AnnImg) (pred : Pred) : Except String AnnImg :=
  let confidence := (pred.confidence.getD 0) * 100
  let class_name := pred.«class».getD "Unknown"
  match pred.points with
  | none => .ok img
  | some pts => do
    let coords ← pts.mapM (fun p => do
      let x ← match p.x with
        | some x => Except.ok x
        | none => Except.error "KeyError: x"
      let y ← match p.y with
        | some y => Except.ok y
        | none => Except.error "KeyError: y"
      pure (x, y))
    .ok (.drawn img coords class_name confidence)

/-- `ImageProcessingService.draw_predictions_on_image` (services.py:89-124):
the loop over predictions, whose per-iteration `try/except` turns a failed
iteration into a `continue` on the unmodified image. Total by construction —
the renderer itself never raises. -/
def draw_predictions_on_image (img : AnnImg) : List Pred → AnnImg
  | [] => img
  | pred :: rest =>
    match drawOne img pred with
    | .error _ => draw_predictions_on_image img rest
    | .ok img2 => draw_predictions_on_image img2 rest

/-! ## Authentication service (`auth_service.py:20-44`)

The Django user table is an explicit list of accounts; `authenticate` is the
identity provider's credential check (match on username and password). -/

structure Account where
  username : String
  email : String
  password : String
deriving DecidableEq

/-- Django `authenticate(username=..., password=...)`: the account whose
credentials match, if any. -/
def djangoAuthenticate (accounts : List Account) (username password : String) :
    Option Account :=
  accounts.find? (fun a => a.username == username && a.password == password)

/-- `AuthenticationService.authenticate_by_email` (auth_service.py:20-44).
`User.objects.get(email=email)` raises `DoesNotExist` on zero matches (caught
and mapped to the bad-credentials message) and `MultipleObjectsReturned` on
several (caught by the generic handler and mapped to the processing-error
message). -/
def authenticate_by_email (accounts : List Account) (email password : String) :
    Option Account × Option String :=
  match accounts.filter (fun a => a.email == email) with
  | [] => (none, some "Correo electrónico o contraseña incorrectos.")
  | [user] =>
    match djangoAuthenticate accounts user.username password with
    | some authenticated_user => (some authenticated_user, none)
    | none => (none, some "Correo electrónico o contraseña incorrectos.")
  | _ => (none, some "Error al procesar la autenticación.")

/-! ## Persistent state: the `Historial` / `Imagen` tables and the blob store

`models.py` is not part of the source tree; the shape of the two model rows
is taken from the fields the services read and write, and the `Historial`
field validation is modelled from the spec (see `historial_full_clean`). -/

/-- A `Historial` row, with the fields `create_historial_from_image` sets.
`imagen` is the storage key of the backing image file; `none` models an
empty/absent file (falsy in `if historial.imagen:`). -/
structure Historial where
  id : Nat
  user : Nat
  imagen : Option String
  porcentaje : ℚ
  grupo : String
  paciente_nombre : String
  fecha_imagen : Int
deriving DecidableEq

/-- An `Imagen` row as the upload view populates it. -/
structure Imagen where
  imagen : Option String
  paciente_nombre : String
  fecha : Int
deriving DecidableEq

/-- The explicit persistent state: the two tables, the blob store (a set of
storage keys), and the id the database assigns to the next inserted row. -/
structure HerniaDB where
  historiales : List Historial := []
  imagenes : List Imagen := []
  blobs : List String := []
  nextId : Nat := 0
deriving DecidableEq

/-- `fecha.astimezone(ECUADOR_TZ)`: shift the wall-clock representation to
UTC-5 (America/Guayaquil); the instant itself is unchanged. -/
def toEcuadorLocal (t : Int) : Int := t - 18000

/-- Write a blob under a key, overwriting any previous content. -/
def insertBlob (blobs : List String) (key : String) : List String :=
  if blobs.contains key then blobs else blobs ++ [key]

/-- Modelled from the spec: `models.py` is not in the source tree, so the
`Historial.full_clean()` field validation is taken from the spec's
HistoryRecord invariant — "confidence ∈ [0,100]; diagnosis ∈ enumeration;
patient display name (free text, bounded length)". -/
def historial_full_clean (h : Historial) : Bool :=
  (decide (0 ≤ h.porcentaje) && decide (h.porcentaje ≤ 100)) &&
  (h.grupo == "Hernia" || h.grupo == "Sin Hernia") &&
  (h.paciente_nombre.length ≤ 100)

/-- The `Historial` row `create_historial_from_image` constructs before
validating and saving it. -/
def builtHistorial (db : HerniaDB) (user : Nat) (imagen_obj : Imagen)
    (paciente_nombre grupo : String) (porcentaje : ℚ) : Historial :=
  { id := db.nextId
    user := user
    imagen := imagen_obj.imagen
    porcentaje := porcentaje
    grupo := grupo
    paciente_nombre := paciente_nombre
    fecha_imagen := toEcuadorLocal imagen_obj.fecha }

/-- `HistorialService.create_historial_from_image` (services.py:157-189),
under `@transaction.atomic`: build the row, `full_clean()` it, then `save()`.
`saveFail` injects a storage/database failure at the `save()` call. The
`except ... raise` re-raises every failure, and the transaction rolls back,
so on error the returned database is the input database. -/
def create_historial_from_image (db : HerniaDB) (saveFail : Bool) (user : Nat)
    (imagen_obj : Imagen) (paciente_nombre grupo : String) (porcentaje : ℚ) :
    Except String Historial × HerniaDB :=
  let historial := builtHistorial db user imagen_obj paciente_nombre grupo porcentaje
  if ¬ historial_full_clean historial then (.error "ValidationError", db)
  else if saveFail then (.error "DatabaseError", db)
  else (.ok historial,
        { db with historiales := db.historiales ++ [historial],
                  nextId := db.nextId + 1 })

/-- The lookup filter of `delete_historial`: `get(id=historial_id, user=user)`
when a user is supplied, `get(id=historial_id)` otherwise. -/
def historialMatch (historial_id : Nat) (user : Option Nat) (h : Historial) : Bool :=
  h.id == historial_id &&
  (match user with
   | some u => h.user == u
   | none => true)

/-- The observable side effects of a deletion, in the order they happen. -/
inductive DelOp where
  | blobDelete (key : String)
  | rowDelete (id : Nat)
deriving DecidableEq

/-- `HistorialService.delete_historial` (services.py:191-212), under
`@transaction.atomic`: locate the row by (id) or (id, user); `DoesNotExist`
is caught and returns `False`; otherwise the backing blob (if any) is deleted
first, then the row, and any other failure re-raises. `blobDeleteFails` /
`rowDeleteFails` inject storage and database failures; the returned trace
records the side effects in order. -/
def delete_historial (db : HerniaDB) (blobDeleteFails : String → Bool)
    (rowDeleteFails : Nat → Bool) (historial_id : Nat) (user : Option Nat) :
    Except String (Bool × HerniaDB × List DelOp) :=
  match db.historiales.find? (historialMatch historial_id user) with
  | none => .ok (false, db, [])
  | some historial =>
    let afterBlob : Except String (HerniaDB × List DelOp) :=
      match historial.imagen with
      | some key =>
        if blobDeleteFails key then .error "StorageError"
        else .ok ({ db with blobs := db.blobs.erase key }, [.blobDelete key])
      | none => .ok (db, [])
    match afterBlob with
    | .error e => .error e
    | .ok (db1, trace) =>
      if rowDeleteFails historial.id then .error "DatabaseError"
      else .ok (true,
                { db1 with historiales := db1.historiales.erase historial },
                trace ++ [.rowDelete historial.id])

/-! ## The upload view (`subir_imagen`, views.py:356-380 POST branch) -/

/-- The responses the POST branch of `subir_imagen` can render. -/
inductive UploadResponse where
  | formError
  | invalidImage (msg : Option String)
  | processError (msg : String)
  | exceptionError (msg : String)
  | results (grupo : String) (porcentaje : ℚ)
deriving DecidableEq

/-- The POST branch of `subir_imagen` (views.py). External effects are
injected: `download_ok` is whether `download_image` returns an image,
`inference` is what `get_inference_result` returns (`none` on any inference
failure), `saveFail` injects a failure into the history `save()`. The body
runs inside `with transaction.atomic()`: a normal `return` commits the row
writes; an exception rolls the row writes back — but blob-store writes are
not transactional and survive the rollback. -/
def subir_imagen_post (db : HerniaDB) (user : Nat) (form_valid : Bool)
    (imagen_file : UploadedFile) (paciente_nombre : String) (now : Int)
    (download_ok : Bool) (inference : Option InferenceResult)
    (saveFail : Bool) : HerniaDB × UploadResponse :=
  if ¬ form_valid then (db, .formError)
  else
    let v := validate_image imagen_file
    if ¬ v.1 then (db, .invalidImage v.2)
    else
      let encrypted_name := generate_encrypted_filename imagen_file.name
      let imagen_obj : Imagen :=
        { imagen := some encrypted_name, paciente_nombre := paciente_nombre,
          fecha := now }
      -- imagen_obj.save(): writes the blob and inserts the Imagen row
      let db1 := { db with imagenes := db.imagenes ++ [imagen_obj],
                           blobs := insertBlob db.blobs encrypted_name }
      if ¬ download_ok then (db1, .processError "Error al procesar la imagen.")
      else
        match inference with
        | none => (db1, .processError "Error al procesar la imagen con el modelo.")
        | some result =>
          -- draw_predictions_on_image + imagen_obj.imagen.save(...):
          -- re-writes the blob in place under the same key
          let db2 := { db1 with blobs := insertBlob db1.blobs encrypted_name }
          let extracted := extract_prediction_data result
          match create_historial_from_image db2 saveFail user imagen_obj
              paciente_nombre extracted.1 extracted.2 with
          | (.error _, _) =>
            ({ db with blobs := db2.blobs },
             .exceptionError "Error al procesar la imagen. Intenta nuevamente.")
          | (.ok _, db3) => (db3, .results extracted.1 extracted.2)

/-! ## Helper lemmas -/

/-- A string without a dot survives `rsplit('.', 1)[-1]` unchanged. -/
theorem pyRsplitLastDot_of_no_dot (s : String) (h : ∀ c ∈ s.data, c ≠ '.') :
    pyRsplitLastDot s = s := by
  unfold pyRsplitLastDot
  have ht : s.data.reverse.takeWhile (fun c => c ≠ '.') = s.data.reverse := by
    rw [List.takeWhile_eq_self_iff]
    intro c hc
    simp only [List.mem_reverse] at hc
    simpa using h c hc
  rw [ht, List.reverse_reverse]

/-! ## C1: prediction extraction is first-match -/

/-- C1. For every inference result, prediction extraction follows the
first-match policy: an empty (or absent) predictions list yields the sentinel
`("Predicción no encontrada", 0.0)`; otherwise only the first element is
used — class `"Sin Hernia"` maps to the negative label, every other class
token to `"Hernia"`, and the confidence is the first element's fractional
confidence × 100 rounded to 2 decimals — and the later elements are ignored
entirely, whatever their confidence. -/
theorem claim_C1_extract_first_match :
    (∀ result : InferenceResult, result.predictions.getD [] = [] →
        extract_prediction_data result = ("Predicción no encontrada", 0)) ∧
    (∀ (result : InferenceResult) (p : Pred) (rest : List Pred),
        result.predictions = some (p :: rest) →
        extract_prediction_data result =
          ((if p.«class».getD "Unknown" = "Sin Hernia" then "Sin Hernia" else "Hernia"),
           pyRound2 ((p.confidence.getD 0) * 100))) ∧
    (∀ (p : Pred) (rest rest' : List Pred),
        extract_prediction_data ⟨some (p :: rest)⟩ =
          extract_prediction_data ⟨some (p :: rest')⟩) := by
  refine ⟨?_, ?_, ?_⟩
  · intro result h
    simp [extract_prediction_data, h]
  · intro result p rest h
    simp [extract_prediction_data, h]
  · intro p rest rest'
    rfl

/-- Witness for C1: the spec's own example, iterated at concrete inputs —
the second, higher-confidence element is ignored. -/
theorem claim_C1_extract_first_match_witness :
    extract_prediction_data
      ⟨some [⟨some "Hernia", some (4/5), none⟩, ⟨some "Sin Hernia", some (99/100), none⟩]⟩ =
      ("Hernia", 80) := by
  have h := claim_C1_extract_first_match.2.1
    ⟨some [⟨some "Hernia", some (4/5), none⟩, ⟨some "Sin Hernia", some (99/100), none⟩]⟩
    ⟨some "Hernia", some (4/5), none⟩ [⟨some "Sin Hernia", some (99/100), none⟩] rfl
  rw [h]
  norm_num [pyRound2]
  exact fun hc => absurd hc (by decide)

/-! ## C3: validation order — extension first, then size -/

/-- C3. Image validation checks extension, size, decodability, dimensions in
that fixed order with the first failure winning: a disallowed extension yields
the format error whatever the size, content or dimensions; an allowed
extension with byte size 0 or above 10×1024×1024 yields the size error
whatever the content. -/
theorem claim_C3_validation_order :
    (∀ f : UploadedFile, validate_file_extension f.name = false →
        validate_image f = (false, some "Formato de archivo no permitido")) ∧
    (∀ f : UploadedFile, validate_file_extension f.name = true →
        f.size = 0 ∨ MAX_FILE_SIZE < f.size →
        validate_image f = (false, some "Archivo demasiado grande (máximo 10.0MB)")) := by
  constructor
  · intro f h
    simp [validate_image, h]
  · intro f h1 h2
    have hs : validate_file_size f.size = false := by
      rcases h2 with h2 | h2
      · simp [validate_file_size, h2]
      · simp only [validate_file_size, MAX_FILE_SIZE] at *
        simp only [Bool.and_eq_false_imp, decide_eq_false_iff_not, not_le,
          Bool.and_eq_true, decide_eq_true_eq] at *
        omega
    simp [validate_image, h1, hs]

/-- Witness for C3: a non-image extension is rejected as format error even
with a tiny undecodable body; an oversized `.jpg` with perfectly valid
content is rejected as too large. -/
theorem claim_C3_validation_order_witness :
    validate_image ⟨"malware.exe", 123, .error "not an image"⟩ =
      (false, some "Formato de archivo no permitido") ∧
    validate_image ⟨"big.jpg", 10485761, .ok (500, 500)⟩ =
      (false, some "Archivo demasiado grande (máximo 10.0MB)") :=
  ⟨claim_C3_validation_order.1 ⟨"malware.exe", 123, .error "not an image"⟩ (by decide),
   claim_C3_validation_order.2 ⟨"big.jpg", 10485761, .ok (500, 500)⟩ (by decide)
     (Or.inr (by decide))⟩

/-! ## C8: validation is total; decode exceptions become results -/

/-- C8. `validate_image` always returns an (accepted, reason) pair — it is
total over every input file object — and an exception raised while decoding
the byte stream is converted into the invalid-image failure result rather
than propagated. -/
theorem claim_C8_validation_total :
    (∀ f : UploadedFile, validate_image f = (true, none) ∨
        ∃ msg, validate_image f = (false, some msg)) ∧
    (∀ (f : UploadedFile) (e : String),
        validate_file_extension f.name = true →
        validate_file_size f.size = true →
        f.decoded = .error e →
        validate_image f = (false, some "Archivo no es una imagen válida")) := by
  constructor
  · intro f
    unfold validate_image
    split
    · exact Or.inr ⟨_, rfl⟩
    · split
      · exact Or.inr ⟨_, rfl⟩
      · cases hd : f.decoded with
        | error e => exact Or.inr ⟨_, rfl⟩
        | ok wh =>
          obtain ⟨w, h⟩ := wh
          dsimp only
          split
          · exact Or.inr ⟨_, rfl⟩
          · exact Or.inl rfl
  · intro f e h1 h2 h3
    simp [validate_image, h1, h2, h3]

/-- Witness for C8: a `.png` of plausible size whose byte stream fails to
decode is reported as not-a-valid-image, not raised. -/
theorem claim_C8_validation_total_witness :
    validate_image ⟨"corrupt.png", 100, .error "UnidentifiedImageError"⟩ =
      (false, some "Archivo no es una imagen válida") :=
  claim_C8_validation_total.2 ⟨"corrupt.png", 100, .error "UnidentifiedImageError"⟩
    "UnidentifiedImageError" (by decide) (by decide) rfl

/-! ## C10: dotless filenames are compared whole against the allowed set -/

/-- C10. For every filename containing no dot, the extension check compares
the entire lowercased filename against the allowed-extension set: a dotless
name passes exactly when its lowercase form is one of
`jpg, jpeg, png, gif, bmp`. -/
theorem claim_C10_dotless_extension :
    ∀ s : String, (∀ c ∈ s.data, c ≠ '.') →
      (validate_file_extension s = true ↔
        ALLOWED_EXTENSIONS.contains (pyLower s) = true) := by
  intro s h
  unfold validate_file_extension
  rw [pyRsplitLastDot_of_no_dot s h]

/-- Witness for C10: the dotless filename `PNG` passes the extension check. -/
theorem claim_C10_dotless_extension_witness :
    (validate_file_extension "PNG" = true ↔
      ALLOWED_EXTENSIONS.contains (pyLower "PNG") = true) ∧
    validate_file_extension "PNG" = true :=
  ⟨claim_C10_dotless_extension "PNG" (by decide),
   (claim_C10_dotless_extension "PNG" (by decide)).mpr (by decide)⟩

/-! ## C6: the annotation renderer tolerates per-prediction failures -/

/-- C6. The annotation renderer never raises (it is a total function into
images); a prediction lacking a `points` polygon leaves the image unchanged
and is skipped silently; and a failure while rendering one prediction is
caught, skipping only that prediction while all remaining predictions are
still processed. -/
theorem claim_C6_renderer_tolerant :
    (∀ (img : AnnImg) (pred : Pred) (rest : List Pred), pred.points = none →
        drawOne img pred = .ok img ∧
        draw_predictions_on_image img (pred :: rest) =
          draw_predictions_on_image img rest) ∧
    (∀ (img : AnnImg) (pred : Pred) (rest : List Pred) (e : String),
        drawOne img pred = .error e →
        draw_predictions_on_image img (pred :: rest) =
          draw_predictions_on_image img rest) := by
  constructor
  · intro img pred rest h
    refine ⟨by simp [drawOne, h], ?_⟩
    simp [draw_predictions_on_image, drawOne, h]
  · intro img pred rest e h
    simp [draw_predictions_on_image, h]

/-- Witness for C6: a polygon-less prediction leaves the source image as-is,
and a malformed-points prediction is skipped while the remainder of the list
is still rendered. -/
theorem claim_C6_renderer_tolerant_witness :
    draw_predictions_on_image (.source 7) [⟨some "Hernia", some (1/2), none⟩] =
      AnnImg.source 7 ∧
    draw_predictions_on_image (.source 7)
      [⟨some "Hernia", some (1/2), some [⟨none, none⟩]⟩,
       ⟨some "Sin Hernia", some (3/4), some [⟨some 1, some 2⟩]⟩] =
    draw_predictions_on_image (.source 7)
      [⟨some "Sin Hernia", some (3/4), some [⟨some 1, some 2⟩]⟩] :=
  ⟨(claim_C6_renderer_tolerant.1 (.source 7) ⟨some "Hernia", some (1/2), none⟩ [] rfl).2,
   claim_C6_renderer_tolerant.2 (.source 7) ⟨some "Hernia", some (1/2), some [⟨none, none⟩]⟩
     [⟨some "Sin Hernia", some (3/4), some [⟨some 1, some 2⟩]⟩] "KeyError: x" rfl⟩

/-! ## C9: login failure causes are indistinguishable -/

/-- C9. `authenticate_by_email` returns `(none, msg)` with the exact same
message `"Correo electrónico o contraseña incorrectos."` both when no account
carries the given email and when the unique matching account rejects the
password, so the two failure causes cannot be told apart from the result. -/
theorem claim_C9_login_indistinguishable :
    (∀ (accounts : List Account) (email password : String),
        (∀ a ∈ accounts, a.email ≠ email) →
        authenticate_by_email accounts email password =
          (none, some "Correo electrónico o contraseña incorrectos.")) ∧
    (∀ (accounts : List Account) (email password : String) (u : Account),
        accounts.filter (fun a => a.email == email) = [u] →
        djangoAuthenticate accounts u.username password = none →
        authenticate_by_email accounts email password =
          (none, some "Correo electrónico o contraseña incorrectos.")) := by
  constructor
  · intro accounts email password h
    have hf : accounts.filter (fun a => a.email == email) = [] := by
      rw [List.filter_eq_nil_iff]
      intro a ha
      simpa using h a ha
    simp [authenticate_by_email, hf]
  · intro accounts email password u hf ha
    simp [authenticate_by_email, hf, ha]

/-- Witness for C9: an unregistered email and a wrong password both yield
exactly the same `(none, message)` result. -/
theorem claim_C9_login_indistinguishable_witness :
    authenticate_by_email [⟨"ana", "ana@clinic.ec", "s3cret"⟩] "bob@clinic.ec" "pw" =
      (none, some "Correo electrónico o contraseña incorrectos.") ∧
    authenticate_by_email [⟨"ana", "ana@clinic.ec", "s3cret"⟩] "ana@clinic.ec" "wrong" =
      (none, some "Correo electrónico o contraseña incorrectos.") :=
  ⟨claim_C9_login_indistinguishable.1 [⟨"ana", "ana@clinic.ec", "s3cret"⟩]
     "bob@clinic.ec" "pw" (by decide),
   claim_C9_login_indistinguishable.2 [⟨"ana", "ana@clinic.ec", "s3cret"⟩]
     "ana@clinic.ec" "wrong" ⟨"ana", "ana@clinic.ec", "s3cret"⟩ (by decide) (by decide)⟩

/-! ## C2: history deletion with an owner filter -/

/-- C2. History deletion locates the record by (id, owner) when an owner
filter is supplied: an id owned by a different user, or a nonexistent id,
yields `False` ("not found"), never a permission error; when a matching
record exists its backing image blob is deleted before the record row (the
trace lists the blob deletion first); and a failure of either deletion other
than record-not-found propagates as an exception. -/
theorem claim_C2_delete_owner_filter :
    (∀ (db : HerniaDB) (bf : String → Bool) (rf : Nat → Bool) (id u : Nat),
        (∀ h ∈ db.historiales, h.id = id → h.user ≠ u) →
        delete_historial db bf rf id (some u) = .ok (false, db, [])) ∧
    (∀ (db : HerniaDB) (bf : String → Bool) (rf : Nat → Bool) (id u : Nat)
        (h : Historial) (key : String),
        db.historiales.find? (historialMatch id (some u)) = some h →
        h.imagen = some key → bf key = false → rf h.id = false →
        delete_historial db bf rf id (some u) =
          .ok (true,
               ⟨db.historiales.erase h, db.imagenes, db.blobs.erase key, db.nextId⟩,
               [.blobDelete key, .rowDelete h.id])) ∧
    (∀ (db : HerniaDB) (bf : String → Bool) (rf : Nat → Bool) (id : Nat)
        (u : Option Nat) (h : Historial) (key : String),
        db.historiales.find? (historialMatch id u) = some h →
        h.imagen = some key → bf key = true →
        delete_historial db bf rf id u = .error "StorageError") ∧
    (∀ (db : HerniaDB) (bf : String → Bool) (rf : Nat → Bool) (id : Nat)
        (u : Option Nat) (h : Historial),
        db.historiales.find? (historialMatch id u) = some h →
        (h.imagen = none ∨ ∃ key, h.imagen = some key ∧ bf key = false) →
        rf h.id = true →
        delete_historial db bf rf id u = .error "DatabaseError") := by
  refine ⟨?_, ?_, ?_, ?_⟩
  · intro db bf rf id u hno
    have hfind : db.historiales.find? (historialMatch id (some u)) = none := by
      rw [List.find?_eq_none]
      intro h hh
      simp only [historialMatch, Bool.and_eq_true, beq_iff_eq, not_and]
      exact fun hid => by simpa using hno h hh hid
    simp [delete_historial, hfind]
  · intro db bf rf id u h key hfind him hbf hrf
    simp [delete_historial, hfind, him, hbf, hrf]
  · intro db bf rf id u h key hfind him hbf
    simp [delete_historial, hfind, him, hbf]
  · intro db bf rf id u h hfind him hrf
    rcases him with hnone | ⟨key, hk, hbf⟩
    · simp [delete_historial, hfind, hnone, hrf]
    · simp [delete_historial, hfind, hk, hbf, hrf]

/-- Witness for C2: with one record (id 1, owner 10, blob `k1`), deleting
id 1 as owner 99 reports not-found without error, and deleting id 1 as
owner 10 removes the blob first and then the row. -/
theorem claim_C2_delete_owner_filter_witness :
    delete_historial ⟨[⟨1, 10, some "k1", 50, "Hernia", "Juan", 0⟩], [], ["k1"], 2⟩
        (fun _ => false) (fun _ => false) 1 (some 99) =
      .ok (false, ⟨[⟨1, 10, some "k1", 50, "Hernia", "Juan", 0⟩], [], ["k1"], 2⟩, []) ∧
    delete_historial ⟨[⟨1, 10, some "k1", 50, "Hernia", "Juan", 0⟩], [], ["k1"], 2⟩
        (fun _ => false) (fun _ => false) 1 (some 10) =
      .ok (true,
           ⟨[⟨(1 : Nat), 10, some "k1", 50, "Hernia", "Juan", 0⟩].erase
               ⟨1, 10, some "k1", 50, "Hernia", "Juan", 0⟩,
            [], ["k1"].erase "k1", 2⟩,
           [.blobDelete "k1", .rowDelete 1]) :=
  ⟨claim_C2_delete_owner_filter.1 ⟨[⟨1, 10, some "k1", 50, "Hernia", "Juan", 0⟩], [], ["k1"], 2⟩
     (fun _ => false) (fun _ => false) 1 99 (by decide),
   claim_C2_delete_owner_filter.2.1 ⟨[⟨1, 10, some "k1", 50, "Hernia", "Juan", 0⟩], [], ["k1"], 2⟩
     (fun _ => false) (fun _ => false) 1 10 ⟨1, 10, some "k1", 50, "Hernia", "Juan", 0⟩ "k1"
     rfl rfl rfl rfl⟩

/-! ## C4: atomic history creation, validation before commit -/

/-- C4. History creation is a single transactional unit with full field
validation (`full_clean`) before `save`: on every input on which the
validation or the storage write fails, the call returns an error and the
database is unchanged — no record is committed; when both succeed, exactly
the validated record is appended. -/
theorem claim_C4_create_atomic :
    (∀ (db : HerniaDB) (saveFail : Bool) (user : Nat) (imagen_obj : Imagen)
        (paciente_nombre grupo : String) (porcentaje : ℚ),
        (historial_full_clean
            (builtHistorial db user imagen_obj paciente_nombre grupo porcentaje) = false ∨
         saveFail = true) →
        ∃ e, create_historial_from_image db saveFail user imagen_obj
            paciente_nombre grupo porcentaje = (.error e, db)) ∧
    (∀ (db : HerniaDB) (user : Nat) (imagen_obj : Imagen)
        (paciente_nombre grupo : String) (porcentaje : ℚ),
        historial_full_clean
            (builtHistorial db user imagen_obj paciente_nombre grupo porcentaje) = true →
        create_historial_from_image db false user imagen_obj
            paciente_nombre grupo porcentaje =
          (.ok (builtHistorial db user imagen_obj paciente_nombre grupo porcentaje),
           { db with
               historiales := db.historiales ++
                 [builtHistorial db user imagen_obj paciente_nombre grupo porcentaje],
               nextId := db.nextId + 1 })) := by
  constructor
  · intro db saveFail user imagen_obj paciente_nombre grupo porcentaje hfail
    by_cases hv : historial_full_clean
        (builtHistorial db user imagen_obj paciente_nombre grupo porcentaje) = true
    · rcases hfail with hfc | hsf
      · rw [hv] at hfc
        exact absurd hfc (by simp)
      · exact ⟨"DatabaseError", by simp [create_historial_from_image, hv, hsf]⟩
    · exact ⟨"ValidationError", by simp [create_historial_from_image, hv]⟩
  · intro db user imagen_obj paciente_nombre grupo porcentaje hv
    simp [create_historial_from_image, hv]

/-- Witness for C4: a confidence of 150 fails validation and commits
nothing; a confidence of 87 passes and appends exactly one record. -/
theorem claim_C4_create_atomic_witness :
    (∃ e, create_historial_from_image ⟨[], [], [], 0⟩ false 10 ⟨some "k", "Juan", 1000⟩
        "Juan" "Hernia" 150 = (.error e, ⟨[], [], [], 0⟩)) ∧
    create_historial_from_image ⟨[], [], [], 0⟩ false 10 ⟨some "k", "Juan", 1000⟩
        "Juan" "Hernia" 87 =
      (.ok (builtHistorial ⟨[], [], [], 0⟩ 10 ⟨some "k", "Juan", 1000⟩ "Juan" "Hernia" 87),
       ⟨[builtHistorial ⟨[], [], [], 0⟩ 10 ⟨some "k", "Juan", 1000⟩ "Juan" "Hernia" 87],
        [], [], 1⟩) :=
  ⟨claim_C4_create_atomic.1 ⟨[], [], [], 0⟩ false 10 ⟨some "k", "Juan", 1000⟩
     "Juan" "Hernia" 150
     (Or.inl (by norm_num [historial_full_clean, builtHistorial])),
   claim_C4_create_atomic.2 ⟨[], [], [], 0⟩ 10 ⟨some "k", "Juan", 1000⟩
     "Juan" "Hernia" 87 (by norm_num [historial_full_clean, builtHistorial]; decide)⟩

/-! ## C5: inference failure aborts before history creation -/

/-- C5. In every run of the upload pipeline in which the inference call
returns no result, the pipeline aborts before history creation: the
history table after the run equals the history table before it (no
HistoryRecord is created), the run renders the inference error, and the
blob written for the pre-annotation image — which is present in the blob
store afterwards — is not linked to any history record. -/
theorem claim_C5_inference_failure_aborts :
    ∀ (db : HerniaDB) (user : Nat) (file : UploadedFile)
      (paciente_nombre : String) (now : Int) (saveFail : Bool),
      (validate_image file).1 = true →
      (∀ h ∈ db.historiales, h.imagen ≠ some (generate_encrypted_filename file.name)) →
      (subir_imagen_post db user true file paciente_nombre now true none saveFail).1.historiales
          = db.historiales ∧
      (subir_imagen_post db user true file paciente_nombre now true none saveFail).2
          = .processError "Error al procesar la imagen con el modelo." ∧
      generate_encrypted_filename file.name ∈
        (subir_imagen_post db user true file paciente_nombre now true none saveFail).1.blobs ∧
      (∀ h ∈ (subir_imagen_post db user true file paciente_nombre now true none saveFail).1.historiales,
          h.imagen ≠ some (generate_encrypted_filename file.name)) := by
  intro db user file paciente_nombre now saveFail hv hfree
  have hrun : subir_imagen_post db user true file paciente_nombre now true none saveFail =
      ({ db with
           imagenes := db.imagenes ++
             [⟨some (generate_encrypted_filename file.name), paciente_nombre, now⟩],
           blobs := insertBlob db.blobs (generate_encrypted_filename file.name) },
       .processError "Error al procesar la imagen con el modelo.") := by
    simp [subir_imagen_post, hv]
  refine ⟨by rw [hrun], by rw [hrun], ?_, ?_⟩
  · rw [hrun]
    show generate_encrypted_filename file.name ∈
      insertBlob db.blobs (generate_encrypted_filename file.name)
    unfold insertBlob
    split
    · next hc => exact List.mem_of_elem_eq_true hc
    · exact List.mem_append_right _ (List.mem_singleton.mpr rfl)
  · rw [hrun]
    exact hfree

/-- Witness for C5: a valid 500×500, 2 MiB `xray.jpg` uploaded into an empty
store, with the inference client returning no result, leaves the history
table empty while the blob is stored. -/
theorem claim_C5_inference_failure_aborts_witness :
    (subir_imagen_post ⟨[], [], [], 0⟩ 10 true ⟨"xray.jpg", 2097152, .ok (500, 500)⟩
        "Juan Pérez" 0 true none false).1.historiales = [] ∧
    (subir_imagen_post ⟨[], [], [], 0⟩ 10 true ⟨"xray.jpg", 2097152, .ok (500, 500)⟩
        "Juan Pérez" 0 true none false).2
      = .processError "Error al procesar la imagen con el modelo." ∧
    generate_encrypted_filename "xray.jpg" ∈
      (subir_imagen_post ⟨[], [], [], 0⟩ 10 true ⟨"xray.jpg", 2097152, .ok (500, 500)⟩
        "Juan Pérez" 0 true none false).1.blobs ∧
    (∀ h ∈ (subir_imagen_post ⟨[], [], [], 0⟩ 10 true ⟨"xray.jpg", 2097152, .ok (500, 500)⟩
        "Juan Pérez" 0 true none false).1.historiales,
        h.imagen ≠ some (generate_encrypted_filename "xray.jpg")) :=
  claim_C5_inference_failure_aborts ⟨[], [], [], 0⟩ 10 ⟨"xray.jpg", 2097152, .ok (500, 500)⟩
    "Juan Pérez" 0 false (by decide) (by simp)

/-! ## C7: stored-filename generation -/

/-- A word prints as exactly eight hex characters. -/
theorem wordHex8_length (w : Nat) : (wordHex8 w).length = 8 := by
  simp [wordHex8]

/-- SHA-256 produces exactly eight hash words. -/
theorem sha256words_length (ms : List Nat) : (sha256words ms).length = 8 := rfl

/-- A SHA-256 hex digest is exactly 64 characters long. -/
theorem sha256hexdigest_length (ms : List Nat) : (sha256hexdigest ms).length = 64 := by
  have hflat : ∀ l : List Nat, ((l.map wordHex8).flatten).length = 8 * l.length := by
    intro l
    induction l with
    | nil => rfl
    | cons x xs ih =>
      simp only [List.map_cons, List.flatten_cons, List.length_append,
        wordHex8_length, ih, List.length_cons]
      ring
  show (((sha256words ms).map wordHex8).flatten).length = 64
  rw [hflat, sha256words_length]

/-- Equal stored keys force equal digests: the digests are the length-64
prefixes of the two keys. -/
theorem digest_eq_of_key_eq {a b : String}
    (h : generate_encrypted_filename a = generate_encrypted_filename b) :
    sha256hexdigest (utf8Encode a) = sha256hexdigest (utf8Encode b) := by
  have hd : (sha256hexdigest (utf8Encode a)).data ++ ("." ++ pyRsplitLastDot a).data =
      (sha256hexdigest (utf8Encode b)).data ++ ("." ++ pyRsplitLastDot b).data := by
    have hdata := congrArg String.data h
    simpa [generate_encrypted_filename, String.data_append, List.append_assoc]
      using hdata
  have hlen : (sha256hexdigest (utf8Encode a)).data.length =
      (sha256hexdigest (utf8Encode b)).data.length := by
    show (sha256hexdigest (utf8Encode a)).length = (sha256hexdigest (utf8Encode b)).length
    rw [sha256hexdigest_length, sha256hexdigest_length]
  exact String.ext (List.append_inj hd hlen).1

/-- C7. Stored-filename generation is the pure function sending a filename to
the SHA-256 hex digest of the whole filename, a dot, and the filename's last
dot-separated segment: it is deterministic, two filenames get the same stored
key only when their SHA-256 digests coincide, and (at the concrete pair
differing only by extension) the digests do differ. -/
theorem claim_C7_encrypted_filename :
    (∀ original_name : String,
        generate_encrypted_filename original_name =
          sha256hexdigest (utf8Encode original_name) ++ "." ++
            pyRsplitLastDot original_name) ∧
    (∀ a b : String, a = b →
        generate_encrypted_filename a = generate_encrypted_filename b) ∧
    (∀ a b : String,
        generate_encrypted_filename a = generate_encrypted_filename b →
        sha256hexdigest (utf8Encode a) = sha256hexdigest (utf8Encode b)) ∧
    sha256hexdigest (utf8Encode "scan.jpg") ≠ sha256hexdigest (utf8Encode "scan.png") :=
  ⟨fun _ => rfl,
   fun _ _ h => by rw [h],
   fun _ _ h => digest_eq_of_key_eq h,
   by decide⟩

/-- Witness for C7: determinism and digest-equality instantiated at
`scan.jpg`. -/
theorem claim_C7_encrypted_filename_witness :
    generate_encrypted_filename "scan.jpg" = generate_encrypted_filename "scan.jpg" ∧
    sha256hexdigest (utf8Encode "scan.jpg") = sha256hexdigest (utf8Encode "scan.jpg") :=
  ⟨claim_C7_encrypted_filename.2.1 "scan.jpg" "scan.jpg" rfl,
   claim_C7_encrypted_filename.2.2.1 "scan.jpg" "scan.jpg" rfl⟩

end HerniaOrtiz
